import Mathlib

/-!
Verification of the accessibility-backend scan pipeline.

This file gives a shallow embedding, in Lean 4, of the decision logic of the
accessibility scanning backend:

* `src/utils/issue-grouper.ts` — severity breakdown, business risk scoring,
  India compliance classification;
* `src/utils/wcag-categorizer.ts` — WCAG enrichment of issues and derivation
  of the WCAG conformance level;
* `src/services/gigw.service.ts` — the GIGW 3.0 compliance checker
  (`runGIGWChecks`);
* `src/services/lighthouse.service.ts` — score extraction in `runLighthouse`;
* `src/server.ts` — the process-wide active-scan counter;
* `src/queues/backgroundProcessor.ts` — the scan orchestrator `processScan`.

External effects (the headless browser, the Lighthouse engine, the database)
are modelled as environments supplying the outcome of each effectful call:
a successful call supplies its value, a failing call supplies the thrown
error message (JavaScript exceptions become `Except String`).  JavaScript
string operations (`String.prototype.includes`) and numbers
(`Math.round`, `Math.min`, `Math.max`) are modelled over `List Char`, `ℚ`,
`ℤ` and `Nat` exactly where the source relies on them.
-/

/-! ## JavaScript primitives -/

/-- Substring test on character lists: `charsContain pat l` is true iff `pat`
occurs contiguously inside `l`.  Models `String.prototype.includes`. -/
def charsContain (pat : List Char) : List Char → Bool
  | [] => pat.isEmpty
  | c :: rest => pat.isPrefixOf (c :: rest) || charsContain pat rest

/-- The test `includes s pat` models the JavaScript test `s.includes(pat)`. -/
def includes (s pat : String) : Bool := charsContain pat.data s.data

/-- Model of `Math.round` on rationals: round half toward positive infinity. -/
def jsRound (q : ℚ) : ℤ := ⌊q + 1/2⌋

/-! ## `src/utils/issue-grouper.ts` — severity breakdown and scoring

The severity of an issue is a string (`"critical"`, `"serious"`,
`"moderate"`, `"minor"`) exactly as in the TypeScript source. -/

/-- Structure `SeverityBreakdown` of `issue-grouper.ts`: per-severity counts plus the
total number of issues. -/
structure SeverityBreakdown where
  critical : Nat
  serious : Nat
  moderate : Nat
  minor : Nat
  total : Nat
deriving DecidableEq, Repr

/-- Business risk level, ordered `Low < Medium < High < Critical`. -/
inductive RiskLevel
  | Low
  | Medium
  | High
  | Critical
deriving DecidableEq, Repr

/-- Numeric rank of a `RiskLevel`, following the order used by the spec. -/
def riskRank : RiskLevel → Nat
  | .Low => 0
  | .Medium => 1
  | .High => 2
  | .Critical => 3

/-- The raw (uncapped) business-risk score of `calculateBusinessRisk`:
`critical*25 + serious*15 + moderate*8 + minor*2`. -/
def riskScore (b : SeverityBreakdown) : Nat :=
  b.critical * 25 + b.serious * 15 + b.moderate * 8 + b.minor * 2

/-- Result of `calculateBusinessRisk`.  The four narrative fields of the
source (`description`, `legalRisk`, `reputationRisk`, `recommendations`) are
fixed per-level texts drawn from a static table and are not touched by any
claim, so they are omitted here. -/
structure BusinessRisk where
  level : RiskLevel
  score : Nat
deriving DecidableEq, Repr

/-- Function `calculateBusinessRisk` of `issue-grouper.ts` (lines 119–192): the raw
score is `riskScore`; the level is decided by the first matching branch of
the `if`/`else if` cascade; the returned score is `Math.min(100, score)`. -/
def calculateBusinessRisk (b : SeverityBreakdown) : BusinessRisk :=
  { level :=
      if b.critical > 0 ∨ riskScore b > 100 then .Critical
      else if b.serious > 5 ∨ riskScore b > 50 then .High
      else if riskScore b > 20 then .Medium
      else .Low,
    score := min 100 (riskScore b) }

/-- Compliance classification used by `calculateIndiaComplianceStatus`. -/
inductive ComplianceStatus
  | NonCompliant
  | PartiallyCompliant
  | Compliant
deriving DecidableEq, Repr

/-- Result of `calculateIndiaComplianceStatus` of `issue-grouper.ts`. -/
structure IndiaCompliance where
  rpwdStatus : ComplianceStatus
  is17802Status : ComplianceStatus
  criticalGaps : List String
  timeline : String
deriving DecidableEq, Repr

/-- Function `calculateIndiaComplianceStatus` of `issue-grouper.ts` (lines 197–238):
`critical>0 → Non-compliant`, else `serious>3 → Partially Compliant`, else
`total>5 → Partially Compliant`, else `Compliant`; both the RPWD and the
IS 17802 statuses receive the same classification. -/
def calculateIndiaComplianceStatus (b : SeverityBreakdown) (isGovernment : Bool) :
    IndiaCompliance :=
  let criticalGaps : List String :=
    (if b.critical > 0 then
      ["Critical WCAG 2.1 Level A violations must be remediated immediately"] else []) ++
    (if b.serious > 0 then
      ["Serious accessibility barriers impact RPWD Act 2016 compliance"] else []) ++
    (if isGovernment then
      ["Government websites must meet GIGW 3.0 and IS 17802 standards"] else [])
  if b.critical > 0 then
    { rpwdStatus := .NonCompliant, is17802Status := .NonCompliant, criticalGaps,
      timeline := "Immediate action required. Recommend 30-day sprint for critical issues, 90 days for full compliance." }
  else if b.serious > 3 then
    { rpwdStatus := .PartiallyCompliant, is17802Status := .PartiallyCompliant, criticalGaps,
      timeline := "Moderate compliance gaps. Recommend 60-day remediation plan for serious issues, 120 days for complete compliance." }
  else if b.total > 5 then
    { rpwdStatus := .PartiallyCompliant, is17802Status := .PartiallyCompliant, criticalGaps,
      timeline := "Minor gaps remain. Recommend addressing in next 90 days to achieve full compliance." }
  else
    { rpwdStatus := .Compliant, is17802Status := .Compliant, criticalGaps,
      timeline := "Strong compliance foundation. Maintain standards and address minor issues in regular maintenance." }

/-! ## `src/server.ts` — the active-scan counter

The module-level variable `activeScans` starts at `0`;
`incrementActiveScans` performs `activeScans++` and `decrementActiveScans`
performs `activeScans = Math.max(0, activeScans - 1)`.  A history of calls
is a list of operations folded over the counter. -/

/-- A call to one of the two exported counter mutators of `server.ts`. -/
inductive CounterOp
  | increment
  | decrement
deriving DecidableEq, Repr

/-- One mutator call: `incrementActiveScans` / `decrementActiveScans`. -/
def counterStep (n : ℤ) : CounterOp → ℤ
  | .increment => n + 1
  | .decrement => max 0 (n - 1)

/-- The value of `activeScans` after a sequence of mutator calls, starting
from its initial value `0`. -/
def runCounter (ops : List CounterOp) : ℤ := ops.foldl counterStep 0

/-! ## `src/services/lighthouse.service.ts` — score extraction

`runLighthouse` reads `result?.lhr?.categories?.accessibility?.score`
(a raw score in `[0,1]`, or absent) and computes
`score ? Math.round(score * 100) : 0`, then throws
`Lighthouse returned invalid score` when
`accessibilityScore === 0 && !score`.  The raw score is modelled as
`Option ℚ`, where `none` is an absent score and JavaScript truthiness makes
`some 0` behave like `none` in both tests. -/

/-- The score extraction and validation logic of `runLighthouse`
(`lighthouse.service.ts`): everything after the Lighthouse engine returned
its result object.  `.error` models the `throw`. -/
def extractLighthouseScore (score : Option ℚ) : Except String ℤ :=
  let accessibilityScore : ℤ :=
    match score with
    | some s => if s ≠ 0 then jsRound (s * 100) else 0
    | none => 0
  if accessibilityScore = 0 ∧ (score = none ∨ score = some 0) then
    .error "Lighthouse returned invalid score"
  else
    .ok accessibilityScore

/-! ## `src/utils/wcag-categorizer.ts` — WCAG enrichment and conformance -/

/-- WCAG principle. -/
inductive WCAGPrinciple
  | Perceivable
  | Operable
  | Understandable
  | Robust
deriving DecidableEq, Repr

/-- WCAG conformance level of a success criterion. -/
inductive WCAGLevel
  | A
  | AA
  | AAA
deriving DecidableEq, Repr

/-- Structure `WCAGCategory` of `wcag-categorizer.ts`. -/
structure WCAGCategory where
  principle : WCAGPrinciple
  guideline : String
  successCriteria : String
  level : WCAGLevel
deriving DecidableEq, Repr

/-- The static `wcagMapping` table of `wcag-categorizer.ts`: rule id to
WCAG category, `none` for unmapped rule ids. -/
def wcagMapping : String → Option WCAGCategory
  | "color-contrast" => some ⟨.Perceivable, "1.4 Distinguishable", "1.4.3 Contrast (Minimum)", .AA⟩
  | "image-alt" => some ⟨.Perceivable, "1.1 Text Alternatives", "1.1.1 Non-text Content", .A⟩
  | "page-has-heading-one" => some ⟨.Perceivable, "1.3 Adaptable", "1.3.1 Info and Relationships", .A⟩
  | "region" => some ⟨.Perceivable, "1.3 Adaptable", "1.3.1 Info and Relationships", .A⟩
  | "landmark-one-main" => some ⟨.Perceivable, "1.3 Adaptable", "1.3.1 Info and Relationships", .A⟩
  | "label" => some ⟨.Perceivable, "1.3 Adaptable", "1.3.1 Info and Relationships", .A⟩
  | "link-name" => some ⟨.Operable, "2.4 Navigable", "2.4.4 Link Purpose (In Context)", .A⟩
  | "button-name" => some ⟨.Operable, "2.4 Navigable", "2.4.4 Link Purpose (In Context)", .A⟩
  | "skip-link" => some ⟨.Operable, "2.4 Navigable", "2.4.1 Bypass Blocks", .A⟩
  | "html-has-lang" => some ⟨.Understandable, "3.1 Readable", "3.1.1 Language of Page", .A⟩
  | "aria-allowed-attr" => some ⟨.Robust, "4.1 Compatible", "4.1.2 Name, Role, Value", .A⟩
  | "aria-required-attr" => some ⟨.Robust, "4.1 Compatible", "4.1.2 Name, Role, Value", .A⟩
  | "aria-valid-attr-value" => some ⟨.Robust, "4.1 Compatible", "4.1.2 Name, Role, Value", .A⟩
  | "duplicate-id" => some ⟨.Robust, "4.1 Compatible", "4.1.1 Parsing", .A⟩
  | "heading-order" => some ⟨.Perceivable, "1.3 Adaptable", "1.3.1 Info and Relationships", .A⟩
  | "empty-heading" => some ⟨.Perceivable, "1.3 Adaptable", "1.3.1 Info and Relationships", .A⟩
  | "list" => some ⟨.Perceivable, "1.3 Adaptable", "1.3.1 Info and Relationships", .A⟩
  | "listitem" => some ⟨.Perceivable, "1.3 Adaptable", "1.3.1 Info and Relationships", .A⟩
  | "meta-viewport" => some ⟨.Operable, "1.4 Distinguishable", "1.4.4 Resize Text", .AA⟩
  | "frame-title" => some ⟨.Operable, "2.4 Navigable", "2.4.1 Bypass Blocks", .A⟩
  | "form-field-multiple-labels" => some ⟨.Perceivable, "1.3 Adaptable", "1.3.1 Info and Relationships", .A⟩
  | "table-duplicate-name" => some ⟨.Perceivable, "1.3 Adaptable", "1.3.1 Info and Relationships", .A⟩
  | "th-has-data-cells" => some ⟨.Perceivable, "1.3 Adaptable", "1.3.1 Info and Relationships", .A⟩
  | "td-headers-attr" => some ⟨.Perceivable, "1.3 Adaptable", "1.3.1 Info and Relationships", .A⟩
  | "video-caption" => some ⟨.Perceivable, "1.2 Time-based Media", "1.2.2 Captions (Prerecorded)", .A⟩
  | "audio-caption" => some ⟨.Perceivable, "1.2 Time-based Media", "1.2.1 Audio-only and Video-only", .A⟩
  | "aria-hidden-focus" => some ⟨.Operable, "2.1 Keyboard Accessible", "2.1.1 Keyboard", .A⟩
  | "tabindex" => some ⟨.Operable, "2.4 Navigable", "2.4.3 Focus Order", .A⟩
  | "select-name" => some ⟨.Perceivable, "1.3 Adaptable", "1.3.1 Info and Relationships", .A⟩
  | "input-image-alt" => some ⟨.Perceivable, "1.1 Text Alternatives", "1.1.1 Non-text Content", .A⟩
  | _ => none

/-- Function `defaultWCAGCategory` of `wcag-categorizer.ts`: the fallback category
for unmapped rule ids. -/
def defaultWCAGCategory : WCAGCategory :=
  ⟨.Robust, "4.1 Compatible", "4.1.1 Parsing", .A⟩

/-- The `severityTextMap` table of `wcag-categorizer.ts`. -/
def severityTextMap : String → Option String
  | "critical" => some "Critical"
  | "serious" => some "Serious"
  | "moderate" => some "Moderate"
  | "minor" => some "Minor"
  | _ => none

/-- The `impactDescriptions` table of `wcag-categorizer.ts`. -/
def impactDescriptions : String → Option String
  | "critical" => some "Blocks access for users with disabilities. Must be fixed immediately."
  | "serious" => some "Significantly impacts usability for users with disabilities. Should be fixed as priority."
  | "moderate" => some "Impacts some users with disabilities. Should be addressed in upcoming sprint."
  | "minor" => some "Minor accessibility improvement. Can be addressed in regular maintenance."
  | _ => none

/-- A raw issue as produced by the structural (axe) checker and consumed by
`enrichIssue` — the `IssueData` shape of `axe.service.ts`. -/
structure RawIssue where
  ruleId : String
  severity : String
  selector : Option String
  snippet : Option String
  description : String
deriving DecidableEq, Repr

/-- Structure `EnrichedIssue` of `wcag-categorizer.ts`.  The fix-dictionary fields
(`owner`, `fixInstruction`, `whatImproves`), static texts looked up from
`fixes.ts` and untouched by every claim, are omitted. -/
structure EnrichedIssue where
  ruleId : String
  severity : String
  severityText : String
  selector : Option String
  description : String
  snippet : Option String
  wcagCategory : WCAGCategory
  impact : String
deriving DecidableEq, Repr

/-- Function `enrichIssue` of `wcag-categorizer.ts` (the fields kept by the model):
the WCAG category is the `wcagMapping` entry for the rule id, with
`defaultWCAGCategory` as fallback. -/
def enrichIssue (issue : RawIssue) : EnrichedIssue :=
  { ruleId := issue.ruleId
    severity := issue.severity
    severityText := (severityTextMap issue.severity).getD "Unknown"
    selector := issue.selector
    description := issue.description
    snippet := issue.snippet
    wcagCategory := (wcagMapping issue.ruleId).getD defaultWCAGCategory
    impact := (impactDescriptions issue.severity).getD "Impacts accessibility." }

/-- Function `enrichIssues` of `wcag-categorizer.ts`. -/
def enrichIssues (issues : List RawIssue) : List EnrichedIssue :=
  issues.map enrichIssue

/-- One entry of the `failedCriteria` map built by
`calculateWCAGConformance`: a failed success criterion, the level recorded
for it (the level of the first issue seen with this criterion), and the
number of issues against it. -/
structure FailedCriterion where
  criterion : String
  level : WCAGLevel
  count : Nat
deriving DecidableEq, Repr

/-- One iteration of the `issues.forEach` loop of
`calculateWCAGConformance`: bump the count of an already-seen criterion, or
append a new entry (insertion order preserved, as for a JS `Map`). -/
def addFailed (acc : List FailedCriterion) (i : EnrichedIssue) : List FailedCriterion :=
  if acc.any (fun f => f.criterion = i.wcagCategory.successCriteria) then
    acc.map (fun f =>
      if f.criterion = i.wcagCategory.successCriteria then
        { f with count := f.count + 1 }
      else f)
  else
    acc ++ [{ criterion := i.wcagCategory.successCriteria,
              level := i.wcagCategory.level, count := 1 }]

/-- The `failedCriteria` map of `calculateWCAGConformance`, as the list of
its entries in insertion order. -/
def failedCriteriaOf (issues : List EnrichedIssue) : List FailedCriterion :=
  issues.foldl addFailed []

/-- Derived WCAG conformance level. -/
inductive ConformanceLevel
  | AAA
  | AA
  | A
  | NonConformant
deriving DecidableEq, Repr

/-- Result of `calculateWCAGConformance` of `wcag-categorizer.ts`. -/
structure WCAGConformance where
  level : ConformanceLevel
  passedCriteria : Nat
  totalCriteria : Nat
  failedCriteria : List FailedCriterion
deriving DecidableEq, Repr

/-- Function `calculateWCAGConformance` of `wcag-categorizer.ts` (lines 313–353 of
the source): group issues into `failedCriteria`, then derive the level:
any recorded Level-A criterion gives `Non-conformant`, else any recorded
Level-AA criterion gives `A`, else no failed criteria gives `AAA`,
else `AA`. -/
def calculateWCAGConformance (issues : List EnrichedIssue) : WCAGConformance :=
  let failed := failedCriteriaOf issues
  let hasLevelA := failed.any (fun f => decide (f.level = WCAGLevel.A))
  let hasLevelAA := failed.any (fun f => decide (f.level = WCAGLevel.AA))
  { level :=
      if hasLevelA then .NonConformant
      else if hasLevelAA then .A
      else if failed.length = 0 then .AAA
      else .AA,
    passedCriteria := 0,
    totalCriteria := 50,
    failedCriteria := failed }

/-! ## `src/services/gigw.service.ts` — the GIGW 3.0 compliance checker

`runGIGWChecks` runs 8 fixed checks sequentially inside one `try` block;
each check calls `page.evaluate`, which either returns a value or throws.
The page is modelled as the outcomes of those evaluations. -/

/-- Structure `GIGWViolation` of `gigw.service.ts`. -/
structure GIGWViolation where
  rule : String
  description : String
  severity : String
deriving DecidableEq, Repr

/-- Structure `GIGWResults` of `gigw.service.ts` (the `details` field is optional in
the source and never set by `runGIGWChecks`, so it is omitted). -/
structure GIGWResults where
  passed : Bool
  totalChecks : Nat
  passedChecks : Nat
  violations : List GIGWViolation
deriving DecidableEq, Repr

/-- The observable behaviour of the page under the 8 GIGW evaluations: each
field is the outcome of the corresponding `page.evaluate` call, in source
order (`.error` models a throw).  The check-8 evaluation
(`focus indicators`) always returns `true` in the source (a placeholder),
so a successful evaluation carries no data. -/
structure GigwPage where
  closedAtStart : Bool
  imagesWithoutAlt : Except String Nat
  hasLangAttribute : Except String Bool
  inputsWithoutLabels : Except String Nat
  hasAutoRefresh : Except String Bool
  hasSkipLink : Except String Bool
  hasKeyboardTraps : Except String Bool
  pageTitleNonempty : Except String Bool
  focusIndicatorsEval : Except String Unit
  closedAtCatch : Bool

/-- The 8 checks of `runGIGWChecks`, in source order.  Each entry is the
outcome of one check: an evaluation error, or `some` violation, or `none`
(the check passed and `passedChecks` is incremented). -/
def gigwCheckList (p : GigwPage) : List (Except String (Option GIGWViolation)) :=
  [ p.imagesWithoutAlt.map (fun n =>
      if n > 0 then
        some ⟨"GIGW 3.0 - 4.1.1 Text Alternatives",
              "Found " ++ toString n ++ " image(s) without alt text. All images must have descriptive alt attributes.",
              "critical"⟩
      else none),
    p.hasLangAttribute.map (fun b =>
      if !b then
        some ⟨"GIGW 3.0 - 4.1.2 Language Declaration",
              "HTML element missing lang attribute. Document language must be declared.",
              "serious"⟩
      else none),
    p.inputsWithoutLabels.map (fun n =>
      if n > 0 then
        some ⟨"GIGW 3.0 - 4.2.4 Form Labels",
              "Found " ++ toString n ++ " form input(s) without associated labels. All form controls must have labels.",
              "critical"⟩
      else none),
    p.hasAutoRefresh.map (fun b =>
      if b then
        some ⟨"GIGW 3.0 - 4.3.1 Auto-Refresh",
              "Page uses auto-refresh meta tag. Automatic page refresh should be avoided or user-controllable.",
              "moderate"⟩
      else none),
    p.hasSkipLink.map (fun b =>
      if !b then
        some ⟨"GIGW 3.0 - 4.2.1 Skip Navigation",
              "Page missing \"Skip to main content\" link. This link should be provided for keyboard users.",
              "serious"⟩
      else none),
    p.hasKeyboardTraps.map (fun b =>
      if b then
        some ⟨"GIGW 3.0 - 4.2.1 Keyboard Access",
              "No focusable elements detected. Ensure all interactive elements are keyboard accessible.",
              "critical"⟩
      else none),
    p.pageTitleNonempty.map (fun b =>
      if !b then
        some ⟨"GIGW 3.0 - 4.1.3 Page Title",
              "Page missing title element or title is empty. Every page must have a descriptive title.",
              "serious"⟩
      else none),
    p.focusIndicatorsEval.map (fun _ => none) ]

/-- Sequential execution of the checks inside the single `try` block of
`runGIGWChecks`: accumulate violations and the passed tally until the first
evaluation error; checks after the error do not run.  Returns the
violations, the `passedChecks` tally, and the error, if any. -/
def runGigwList :
    List (Except String (Option GIGWViolation)) →
      List GIGWViolation × Nat × Option String
  | [] => ([], 0, none)
  | c :: rest =>
    match c with
    | .error e => ([], 0, some e)
    | .ok none =>
        let r := runGigwList rest
        (r.1, r.2.1 + 1, r.2.2)
    | .ok (some v) =>
        let r := runGigwList rest
        (v :: r.1, r.2.1, r.2.2)

/-- Function `runGIGWChecks` of `gigw.service.ts` (lines 26–205): throw when the page
is already closed; run the 8 checks sequentially; in the `catch`, re-throw
when the error (or the page state) indicates a closed page, otherwise fall
through and return the partial results accumulated before the error. -/
def runGIGWChecks (p : GigwPage) : Except String GIGWResults :=
  if p.closedAtStart then
    .error "Page was closed before GIGW checks could complete"
  else
    let r := runGigwList (gigwCheckList p)
    let violations := r.1
    let passedChecks := r.2.1
    match r.2.2 with
    | some e =>
        if includes e "Target closed" || includes e "Session closed" || p.closedAtCatch then
          .error "Page was closed during GIGW checks - scan may have been interrupted"
        else
          .ok { passed := violations.isEmpty, totalChecks := 8,
                passedChecks := passedChecks, violations := violations }
    | none =>
        .ok { passed := violations.isEmpty, totalChecks := 8,
              passedChecks := passedChecks, violations := violations }

/-! ## `src/queues/backgroundProcessor.ts` — the scan orchestrator

`processScan` is modelled as a total function over a `ScanEnv` recording
the outcome of every external call it makes: the two shutdown-flag reads,
the database lookup, `openPage`, and the three checkers (`runAxeScan`,
`runGIGWChecks`, `runLighthouse`).  The function returns the final state of
the scan record together with the browser-session bookkeeping.  Totality of
`processScan` is the model of the source contract that the top-level
invocation never throws: every throw inside the `try` is an
`Except.error` of `runScanInner`, consumed by the `catch`. -/

/-- Result of `runAxeScan` (`axe.service.ts`): the mapped issues.  The raw
`results.violations` array, persisted verbatim into `metaJson` and
inspected by no claim, is omitted. -/
structure AxeResults where
  issues : List RawIssue
deriving DecidableEq, Repr

/-- Outcomes of the external calls made during one `processScan` run. -/
structure ScanEnv where
  shuttingDownAtStart : Bool
  shuttingDownAfterIncrement : Bool
  scanFound : Bool
  url : String
  openPageResult : Except String Unit
  pageClosedBeforeAxe : Bool
  axeRun : Except String AxeResults
  pageClosedBeforeGigw : Bool
  gigwRun : Except String GIGWResults
  lighthouseRun : Except String ℤ

/-- The axe branch of the `Promise.all` (backgroundProcessor.ts lines
145–160): throw if the page is closed, else run axe; in the `.catch`,
map closed-page errors to `Browser page was closed during scan` and
re-throw everything else unchanged.  This is the only branch of the
`Promise.all` that can reject. -/
def axeTask (env : ScanEnv) : Except String AxeResults :=
  let body : Except String AxeResults :=
    if env.pageClosedBeforeAxe then
      .error "Page was closed before Axe scan could complete"
    else env.axeRun
  match body with
  | .ok r => .ok r
  | .error msg =>
      if includes msg "closed" || includes msg "Target closed" then
        .error "Browser page was closed during scan"
      else
        .error msg

/-- The GIGW branch of the `Promise.all` (lines 162–180): skip (null) when
the page is closed; otherwise run the checks; the `.catch` returns null on
every error. -/
def gigwTask (env : ScanEnv) : Option GIGWResults :=
  if env.pageClosedBeforeGigw then none
  else
    match env.gigwRun with
    | .ok r => some r
    | .error _ => none

/-- The Lighthouse branch of the `Promise.all` (lines 182–193): the
`.catch` returns null on every error, so a failed `runLighthouse` becomes
an absent score. -/
def lighthouseTask (env : ScanEnv) : Option ℤ :=
  match env.lighthouseRun with
  | .ok n => some n
  | .error _ => none

/-- The data persisted on the success path of `processScan`: the axe
issues (bulk-inserted), the transformed GIGW results (null when the GIGW
branch yielded null), and the score (null when the Lighthouse branch
yielded null). -/
structure ScanData where
  issues : List RawIssue
  gigw : Option GIGWResults
  score : Option ℤ
deriving DecidableEq, Repr

/-- Outcome of the `try` block of `processScan` (lines 48–276): the thrown
error or the data to persist, plus the browser-session bookkeeping.
`browserAcquired` is true iff `openPage` returned a page and browser;
`browserReleased` is true iff the close block (lines 204–215) ran — in the
source it is reached only after `Promise.all` resolves, so an axe-branch
rejection skips it. -/
structure InnerRun where
  result : Except String ScanData
  browserAcquired : Bool
  browserReleased : Bool
  markedProcessing : Bool
deriving Repr

/-- The `try` block of `processScan`, step by step: the shutdown re-check,
the `processing` status update, the scan lookup, `openPage` (with its
navigation-error rewording, lines 83–90), the parallel checkers, the
browser close, and the batched persistence of results. -/
def runScanInner (env : ScanEnv) : InnerRun :=
  if env.shuttingDownAfterIncrement then
    { result := .error "Server is shutting down - scan cancelled",
      browserAcquired := false, browserReleased := false, markedProcessing := false }
  else if !env.scanFound then
    { result := .error "Scan or website not found",
      browserAcquired := false, browserReleased := false, markedProcessing := true }
  else
    match env.openPageResult with
    | .error navMsg =>
        let msg :=
          if includes navMsg "frame was detached" || includes navMsg "Navigation failed" then
            "Failed to navigate to " ++ env.url ++
              ": Page was closed or detached. This may happen if the server is shutting down."
          else navMsg
        { result := .error msg,
          browserAcquired := false, browserReleased := false, markedProcessing := true }
    | .ok _ =>
        match axeTask env with
        | .error e =>
            { result := .error e,
              browserAcquired := true, browserReleased := false, markedProcessing := true }
        | .ok axeResults =>
            { result := .ok { issues := axeResults.issues,
                              gigw := gigwTask env,
                              score := lighthouseTask env },
              browserAcquired := true, browserReleased := true, markedProcessing := true }

/-- The `errorType` classification written by the `catch` block of
`processScan`, plus the `server_shutdown` type written by the early-return
path (lines 30–43). -/
inductive ScanErrorType
  | browser_closed
  | frame_detached
  | timeout
  | connection_refused
  | unknown
  | server_shutdown
deriving DecidableEq, Repr

/-- The keyword-based `errorType` classification of the `catch` block of
`processScan` (lines 311–314). -/
def classifyError (msg : String) : ScanErrorType :=
  if includes msg "Target closed" || includes msg "Session closed" then .browser_closed
  else if includes msg "Navigating frame was detached" || includes msg "frame was detached" then .frame_detached
  else if includes msg "timeout" then .timeout
  else if includes msg "ECONNREFUSED" then .connection_refused
  else .unknown

/-- Scan record status. -/
inductive ScanStatus
  | queued
  | processing
  | completed
  | failed
deriving DecidableEq, Repr

/-- The final state of the scan record after `processScan` returns, plus
the browser-session bookkeeping of the run. -/
structure ScanOutcome where
  status : ScanStatus
  score : Option ℤ
  errorType : Option ScanErrorType
  issuesSaved : List RawIssue
  gigwSaved : Option GIGWResults
  browserAcquired : Bool
  browserReleased : Bool
deriving DecidableEq, Repr

/-- Function `processScan` of `backgroundProcessor.ts` (lines 25–328): the early
shutdown return, then the `try` body (`runScanInner`), whose error is
consumed by the `catch` (mark `failed`, record the classified `errorType`)
— the error is never re-thrown, so the function is total. -/
def processScan (env : ScanEnv) : ScanOutcome :=
  if env.shuttingDownAtStart then
    { status := .failed, score := none, errorType := some .server_shutdown,
      issuesSaved := [], gigwSaved := none,
      browserAcquired := false, browserReleased := false }
  else
    let inner := runScanInner env
    match inner.result with
    | .ok data =>
        { status := .completed, score := data.score, errorType := none,
          issuesSaved := data.issues, gigwSaved := data.gigw,
          browserAcquired := inner.browserAcquired,
          browserReleased := inner.browserReleased }
    | .error msg =>
        { status := .failed, score := none,
          errorType := some (classifyError msg),
          issuesSaved := [], gigwSaved := none,
          browserAcquired := inner.browserAcquired,
          browserReleased := inner.browserReleased }

/-- Function `calculateSeverityBreakdown` of `issue-grouper.ts` (lines 97–114):
per-severity counts over the enriched issues, with `total` equal to the
length of the issue list.  (Placed here because it consumes
`EnrichedIssue`.) -/
def calculateSeverityBreakdown (issues : List EnrichedIssue) : SeverityBreakdown :=
  issues.foldl
    (fun b i =>
      if i.severity = "critical" then { b with critical := b.critical + 1 }
      else if i.severity = "serious" then { b with serious := b.serious + 1 }
      else if i.severity = "moderate" then { b with moderate := b.moderate + 1 }
      else if i.severity = "minor" then { b with minor := b.minor + 1 }
      else b)
    { critical := 0, serious := 0, moderate := 0, minor := 0, total := issues.length }


/-- The violations produced by the error-free prefix of a check list:
what `runGIGWChecks` accumulates before the first evaluation error. -/
def gigwOkViolations (l : List (Except String (Option GIGWViolation))) : List GIGWViolation :=
  l.filterMap fun c =>
    match c with
    | .ok (some v) => some v
    | _ => none

/-- The 'passedChecks' tally contributed by the error-free prefix of a
check list. -/
def gigwPassCount (l : List (Except String (Option GIGWViolation))) : Nat :=
  l.countP fun c =>
    match c with
    | .ok none => true
    | _ => false

/-- All categories that `enrichIssue` can ever assign: the 30 entries of
the `wcagMapping` table plus the fallback `defaultWCAGCategory`. -/
def wcagCatalog : List WCAGCategory :=
  (["color-contrast", "image-alt", "page-has-heading-one", "region",
    "landmark-one-main", "label", "link-name", "button-name", "skip-link",
    "html-has-lang", "aria-allowed-attr", "aria-required-attr",
    "aria-valid-attr-value", "duplicate-id", "heading-order", "empty-heading",
    "list", "listitem", "meta-viewport", "frame-title",
    "form-field-multiple-labels", "table-duplicate-name", "th-has-data-cells",
    "td-headers-attr", "video-caption", "audio-caption", "aria-hidden-focus",
    "tabindex", "select-name", "input-image-alt"].filterMap wcagMapping) ++
  [defaultWCAGCategory]

/-- A run in which the browser session is acquired and then the structural
(axe) checker rejects with an ordinary evaluation error, while the GIGW and
Lighthouse checkers would have succeeded. -/
def axeFailureEnv : ScanEnv :=
  { shuttingDownAtStart := false
    shuttingDownAfterIncrement := false
    scanFound := true
    url := "https://example.com"
    openPageResult := .ok ()
    pageClosedBeforeAxe := false
    axeRun := .error "Evaluation failed: axe is not defined"
    pageClosedBeforeGigw := false
    gigwRun := .ok { passed := true, totalChecks := 8, passedChecks := 8, violations := [] }
    lighthouseRun := .ok 90 }

/-- A run in which only the structural (axe) checker fails while the other
two checkers succeed. -/
def axeOnlyFailureEnv : ScanEnv :=
  { shuttingDownAtStart := false
    shuttingDownAfterIncrement := false
    scanFound := true
    url := "https://example.com"
    openPageResult := .ok ()
    pageClosedBeforeAxe := false
    axeRun := .error "axe-core script injection failed"
    pageClosedBeforeGigw := false
    gigwRun := .ok { passed := true, totalChecks := 8, passedChecks := 8, violations := [] }
    lighthouseRun := .ok 77 }

/-- A run in which the GIGW checker and the Lighthouse checker both fail
while the structural (axe) checker succeeds. -/
def gigwLighthouseFailureEnv : ScanEnv :=
  { shuttingDownAtStart := false
    shuttingDownAfterIncrement := false
    scanFound := true
    url := "https://example.com"
    openPageResult := .ok ()
    pageClosedBeforeAxe := false
    axeRun := .ok { issues := [] }
    pageClosedBeforeGigw := false
    gigwRun := .error "Execution context was destroyed"
    lighthouseRun := .error "connect ECONNREFUSED 127.0.0.1:9222" }

/-- A run in which a checker yields a Failed outcome (the axe branch
rejects with a closed-page error). -/
def failedCheckerEnv : ScanEnv :=
  { shuttingDownAtStart := false
    shuttingDownAfterIncrement := false
    scanFound := true
    url := "https://example.org"
    openPageResult := .ok ()
    pageClosedBeforeAxe := false
    axeRun := .error "Protocol error: Target closed"
    pageClosedBeforeGigw := false
    gigwRun := .ok { passed := true, totalChecks := 8, passedChecks := 8, violations := [] }
    lighthouseRun := .ok 80 }

/-- A run in which only the Lighthouse checker fails. -/
def lighthouseFailureEnv : ScanEnv :=
  { shuttingDownAtStart := false
    shuttingDownAfterIncrement := false
    scanFound := true
    url := "https://example.net"
    openPageResult := .ok ()
    pageClosedBeforeAxe := false
    axeRun := .ok { issues := [] }
    pageClosedBeforeGigw := false
    gigwRun := .ok { passed := true, totalChecks := 8, passedChecks := 8, violations := [] }
    lighthouseRun := .error "connect ECONNREFUSED" }

/-- A page on which the first GIGW evaluation throws an ordinary
(non-session-loss) error while the remaining seven checks would all
pass. -/
def gigwErrorPage : GigwPage :=
  { closedAtStart := false
    imagesWithoutAlt := .error "Evaluation failed: Execution context was destroyed"
    hasLangAttribute := .ok true
    inputsWithoutLabels := .ok 0
    hasAutoRefresh := .ok false
    hasSkipLink := .ok true
    hasKeyboardTraps := .ok false
    pageTitleNonempty := .ok true
    focusIndicatorsEval := .ok ()
    closedAtCatch := false }

/-- The same page as `gigwErrorPage` but with the first evaluation
succeeding (no images without alt text): all eight checks pass. -/
def gigwAllPassPage : GigwPage :=
  { closedAtStart := false
    imagesWithoutAlt := .ok 0
    hasLangAttribute := .ok true
    inputsWithoutLabels := .ok 0
    hasAutoRefresh := .ok false
    hasSkipLink := .ok true
    hasKeyboardTraps := .ok false
    pageTitleNonempty := .ok true
    focusIndicatorsEval := .ok ()
    closedAtCatch := false }

/-- A page on which the first check finds a violation and the second check
throws an ordinary error. -/
def gigwWitnessPage : GigwPage :=
  { closedAtStart := false
    imagesWithoutAlt := .ok 3
    hasLangAttribute := .error "boom"
    inputsWithoutLabels := .ok 0
    hasAutoRefresh := .ok false
    hasSkipLink := .ok true
    hasKeyboardTraps := .ok false
    pageTitleNonempty := .ok true
    focusIndicatorsEval := .ok ()
    closedAtCatch := false }

/-- An issue whose rule id is absent from the `wcagMapping` table. -/
def unmappedIssue : RawIssue :=
  { ruleId := "totally-custom-rule", severity := "minor",
    selector := none, snippet := none, description := "custom rule finding" }

/-! ## Theorems -/

/-- Helper for C9: the counter stays nonnegative from any nonnegative
start. -/
theorem counter_foldl_nonneg (ops : List CounterOp) (n : ℤ) (hn : 0 ≤ n) :
    0 ≤ ops.foldl counterStep n := by
  induction ops generalizing n with
  | nil => simpa using hn
  | cons op rest ih =>
      simp only [List.foldl_cons]
      apply ih
      cases op with
      | increment => simp only [counterStep]; omega
      | decrement => exact le_max_left 0 (n - 1)

/-- C9: the process-wide active-scan counter is never negative:
`incrementActiveScans` adds one, `decrementActiveScans` clamps at zero, and
any sequence of calls starting from the initial value `0` — including a
decrement without a matching increment — leaves the counter `≥ 0`. -/
theorem activeScans_counter_never_negative :
    (∀ ops : List CounterOp, 0 ≤ runCounter ops) ∧
    (∀ n : ℤ, counterStep n CounterOp.increment = n + 1 ∧
              counterStep n CounterOp.decrement = max 0 (n - 1)) ∧
    runCounter [CounterOp.decrement] = 0 :=
  ⟨fun ops => counter_foldl_nonneg ops 0 le_rfl,
   fun _ => ⟨rfl, rfl⟩,
   rfl⟩

/-- C4: `calculateBusinessRisk` returns the raw score
`critical*25 + serious*15 + moderate*8 + minor*2` capped at 100, assigns
the level by first-match order (`critical>0 ∨ score>100` gives Critical;
else `serious>5 ∨ score>50` gives High; else `score>20` gives Medium; else
Low), and on the single serious `color-contrast` issue yields breakdown
`{critical:0, serious:1, moderate:0, minor:0, total:1}`, score 15 and
level Low. -/
theorem businessRisk_formula_and_scenario :
    (∀ b : SeverityBreakdown,
      (calculateBusinessRisk b).score = min 100 (riskScore b) ∧
      ((b.critical > 0 ∨ riskScore b > 100) →
        (calculateBusinessRisk b).level = RiskLevel.Critical) ∧
      (b.critical = 0 → riskScore b ≤ 100 → (b.serious > 5 ∨ riskScore b > 50) →
        (calculateBusinessRisk b).level = RiskLevel.High) ∧
      (b.critical = 0 → riskScore b ≤ 100 → b.serious ≤ 5 → riskScore b ≤ 50 →
        riskScore b > 20 → (calculateBusinessRisk b).level = RiskLevel.Medium) ∧
      (b.critical = 0 → riskScore b ≤ 100 → b.serious ≤ 5 → riskScore b ≤ 50 →
        riskScore b ≤ 20 → (calculateBusinessRisk b).level = RiskLevel.Low)) ∧
    calculateSeverityBreakdown
        (enrichIssues [⟨"color-contrast", "serious", some ".nav", none, ""⟩]) =
      ⟨0, 1, 0, 0, 1⟩ ∧
    calculateBusinessRisk ⟨0, 1, 0, 0, 1⟩ = ⟨RiskLevel.Low, 15⟩ := by
  refine ⟨fun b => ⟨rfl, ?_, ?_, ?_, ?_⟩, by decide, by decide⟩
  · intro h
    simp only [calculateBusinessRisk]
    rw [if_pos h]
  · intro h1 h2 h3
    simp only [calculateBusinessRisk]
    rw [if_neg (by omega), if_pos h3]
  · intro h1 h2 h3 h4 h5
    simp only [calculateBusinessRisk]
    rw [if_neg (by omega), if_neg (by omega), if_pos h5]
  · intro h1 h2 h3 h4 h5
    simp only [calculateBusinessRisk]
    rw [if_neg (by omega), if_neg (by omega), if_neg (by omega)]

/-- Witness for C4: the High branch applied at a concrete breakdown with 6
serious issues (raw score 90). -/
theorem businessRisk_formula_and_scenario_witness :
    (calculateBusinessRisk ⟨0, 6, 0, 0, 6⟩).level = RiskLevel.High :=
  (businessRisk_formula_and_scenario.1 ⟨0, 6, 0, 0, 6⟩).2.2.1 rfl (by decide)
    (Or.inl (by decide))

/-- C5: the business-risk level is monotone non-decreasing (in the order
Low < Medium < High < Critical) when the four severity counts grow
componentwise. -/
theorem businessRisk_level_monotone (b b' : SeverityBreakdown)
    (hc : b.critical ≤ b'.critical) (hs : b.serious ≤ b'.serious)
    (hm : b.moderate ≤ b'.moderate) (hn : b.minor ≤ b'.minor) :
    riskRank (calculateBusinessRisk b).level ≤
      riskRank (calculateBusinessRisk b').level := by
  have hscore : riskScore b ≤ riskScore b' := by
    simp only [riskScore]; omega
  simp only [calculateBusinessRisk]
  split_ifs <;> simp only [riskRank] <;> omega

/-- Witness for C5: monotonicity applied between the empty breakdown and a
breakdown with one critical issue. -/
theorem businessRisk_level_monotone_witness :
    riskRank (calculateBusinessRisk ⟨0, 0, 0, 0, 0⟩).level ≤
      riskRank (calculateBusinessRisk ⟨1, 0, 0, 0, 1⟩).level :=
  businessRisk_level_monotone ⟨0, 0, 0, 0, 0⟩ ⟨1, 0, 0, 0, 1⟩
    (by decide) (by decide) (by decide) (by decide)

/-- C6: `calculateIndiaComplianceStatus` classifies by first-match order
(`critical>0` gives Non-compliant, else `serious>3` gives Partially
Compliant, else `total>5` gives Partially Compliant, else Compliant); the
all-zero breakdown is Compliant, and any breakdown with exactly one
critical issue is Non-compliant. -/
theorem indiaCompliance_cascade :
    (∀ (b : SeverityBreakdown) (g : Bool),
      (b.critical > 0 →
        (calculateIndiaComplianceStatus b g).rpwdStatus = ComplianceStatus.NonCompliant ∧
        (calculateIndiaComplianceStatus b g).is17802Status = ComplianceStatus.NonCompliant) ∧
      (b.critical = 0 → b.serious > 3 →
        (calculateIndiaComplianceStatus b g).rpwdStatus = ComplianceStatus.PartiallyCompliant ∧
        (calculateIndiaComplianceStatus b g).is17802Status = ComplianceStatus.PartiallyCompliant) ∧
      (b.critical = 0 → b.serious ≤ 3 → b.total > 5 →
        (calculateIndiaComplianceStatus b g).rpwdStatus = ComplianceStatus.PartiallyCompliant ∧
        (calculateIndiaComplianceStatus b g).is17802Status = ComplianceStatus.PartiallyCompliant) ∧
      (b.critical = 0 → b.serious ≤ 3 → b.total ≤ 5 →
        (calculateIndiaComplianceStatus b g).rpwdStatus = ComplianceStatus.Compliant ∧
        (calculateIndiaComplianceStatus b g).is17802Status = ComplianceStatus.Compliant)) ∧
    (∀ g, (calculateIndiaComplianceStatus ⟨0, 0, 0, 0, 0⟩ g).rpwdStatus =
      ComplianceStatus.Compliant) ∧
    (∀ (b : SeverityBreakdown) (g : Bool), b.critical = 1 →
      (calculateIndiaComplianceStatus b g).rpwdStatus = ComplianceStatus.NonCompliant) := by
  have main : ∀ (b : SeverityBreakdown) (g : Bool),
      (b.critical > 0 →
        (calculateIndiaComplianceStatus b g).rpwdStatus = ComplianceStatus.NonCompliant ∧
        (calculateIndiaComplianceStatus b g).is17802Status = ComplianceStatus.NonCompliant) ∧
      (b.critical = 0 → b.serious > 3 →
        (calculateIndiaComplianceStatus b g).rpwdStatus = ComplianceStatus.PartiallyCompliant ∧
        (calculateIndiaComplianceStatus b g).is17802Status = ComplianceStatus.PartiallyCompliant) ∧
      (b.critical = 0 → b.serious ≤ 3 → b.total > 5 →
        (calculateIndiaComplianceStatus b g).rpwdStatus = ComplianceStatus.PartiallyCompliant ∧
        (calculateIndiaComplianceStatus b g).is17802Status = ComplianceStatus.PartiallyCompliant) ∧
      (b.critical = 0 → b.serious ≤ 3 → b.total ≤ 5 →
        (calculateIndiaComplianceStatus b g).rpwdStatus = ComplianceStatus.Compliant ∧
        (calculateIndiaComplianceStatus b g).is17802Status = ComplianceStatus.Compliant) := by
    intro b g
    refine ⟨?_, ?_, ?_, ?_⟩
    · intro h
      simp only [calculateIndiaComplianceStatus]
      rw [if_pos h]
      exact ⟨rfl, rfl⟩
    · intro h1 h2
      simp only [calculateIndiaComplianceStatus]
      rw [if_neg (by omega), if_pos h2]
      exact ⟨rfl, rfl⟩
    · intro h1 h2 h3
      simp only [calculateIndiaComplianceStatus]
      rw [if_neg (by omega), if_neg (by omega), if_pos h3]
      exact ⟨rfl, rfl⟩
    · intro h1 h2 h3
      simp only [calculateIndiaComplianceStatus]
      rw [if_neg (by omega), if_neg (by omega), if_neg (by omega)]
      exact ⟨rfl, rfl⟩
  refine ⟨main, fun g => ((main ⟨0, 0, 0, 0, 0⟩ g).2.2.2 rfl (by decide) (by decide)).1,
    fun b g h => ((main b g).1 (by omega)).1⟩

/-- Witness for C6: the cascade applied at the all-zero breakdown and at a
one-critical breakdown. -/
theorem indiaCompliance_cascade_witness :
    (calculateIndiaComplianceStatus ⟨0, 0, 0, 0, 0⟩ false).rpwdStatus =
        ComplianceStatus.Compliant ∧
    (calculateIndiaComplianceStatus ⟨1, 0, 0, 0, 1⟩ true).rpwdStatus =
        ComplianceStatus.NonCompliant :=
  ⟨indiaCompliance_cascade.2.1 false,
   indiaCompliance_cascade.2.2 ⟨1, 0, 0, 0, 1⟩ true rfl⟩

/-- Helper: the success path of `processScan` — with no shutdown, a found
scan, a successful `openPage` and a successful axe branch, the scan
completes with the data assembled from the three checker branches and the
browser is acquired and released. -/
theorem processScan_completed (env : ScanEnv)
    (h1 : env.shuttingDownAtStart = false)
    (h2 : env.shuttingDownAfterIncrement = false)
    (h3 : env.scanFound = true)
    (h4 : env.openPageResult = Except.ok ())
    (r : AxeResults) (h5 : axeTask env = Except.ok r) :
    processScan env =
      { status := .completed, score := lighthouseTask env, errorType := none,
        issuesSaved := r.issues, gigwSaved := gigwTask env,
        browserAcquired := true, browserReleased := true } := by
  simp [processScan, runScanInner, h1, h2, h3, h4, h5]

/-- Helper: the failure path of `processScan` — any error escaping the
`try` body is caught, the scan is marked failed with the classified error
type, and the browser bookkeeping of the inner run is preserved. -/
theorem processScan_failed (env : ScanEnv) (msg : String)
    (h1 : env.shuttingDownAtStart = false)
    (h : (runScanInner env).result = Except.error msg) :
    processScan env =
      { status := .failed, score := none,
        errorType := some (classifyError msg),
        issuesSaved := [], gigwSaved := none,
        browserAcquired := (runScanInner env).browserAcquired,
        browserReleased := (runScanInner env).browserReleased } := by
  simp [processScan, h1, h]

/-- C1: contrary to the unconditional-release contract, `processScan` does
NOT close the page and browser on every exit path after a successful
`openPage`: when the structural (axe) checker rejects, `Promise.all`
rejects and control jumps to the `catch` block, skipping the close block
at lines 204–215 — the session is acquired but never released.  Evaluated
at `axeFailureEnv`, a run whose axe checker throws an ordinary evaluation
error after the browser was acquired. -/
theorem browser_not_released_on_axe_failure :
    (processScan axeFailureEnv).browserAcquired = true ∧
    (processScan axeFailureEnv).browserReleased = false ∧
    (processScan axeFailureEnv).status = ScanStatus.failed :=
  ⟨rfl, rfl, rfl⟩

/-- Counterexample to C2: a scan in which exactly one checker (the
structural/axe checker) fails while the compliance and score checkers
succeed is marked `failed`, not `completed` — the axe `.catch` re-throws
instead of converting the failure into an absent partial result. -/
theorem axe_failure_scan_not_completed :
    (processScan axeOnlyFailureEnv).status = ScanStatus.failed ∧
    (processScan axeOnlyFailureEnv).status ≠ ScanStatus.completed :=
  ⟨rfl, by decide⟩

/-- C2 (amended): only the compliance (GIGW) and score (Lighthouse)
checker failures are caught at their call sites and converted into
null/absent partial results — with those two checkers failing in any
combination the scan still completes with whatever subset succeeded; a
structural (axe) checker failure instead fails the whole scan. -/
theorem checker_failure_partial_results (env : ScanEnv)
    (h1 : env.shuttingDownAtStart = false)
    (h2 : env.shuttingDownAfterIncrement = false)
    (h3 : env.scanFound = true)
    (h4 : env.openPageResult = Except.ok ())
    (h5 : env.pageClosedBeforeAxe = false)
    (r : AxeResults) (h6 : env.axeRun = Except.ok r) :
    (processScan env).status = ScanStatus.completed ∧
    (∀ e, env.gigwRun = Except.error e → (processScan env).gigwSaved = none) ∧
    (∀ e, env.lighthouseRun = Except.error e → (processScan env).score = none) ∧
    (env.pageClosedBeforeGigw = false → ∀ g, env.gigwRun = Except.ok g →
      (processScan env).gigwSaved = some g) ∧
    (∀ n : ℤ, env.lighthouseRun = Except.ok n → (processScan env).score = some n) ∧
    (processScan env).issuesSaved = r.issues := by
  have hax : axeTask env = Except.ok r := by
    simp [axeTask, h5, h6]
  have hps := processScan_completed env h1 h2 h3 h4 r hax
  rw [hps]
  refine ⟨rfl, ?_, ?_, ?_, ?_, rfl⟩
  · intro e he
    cases hpc : env.pageClosedBeforeGigw <;> simp [gigwTask, hpc, he]
  · intro e he
    simp [lighthouseTask, he]
  · intro hpc g hg
    simp [gigwTask, hpc, hg]
  · intro n hn
    simp [lighthouseTask, hn]

/-- Witness for C2 (amended): a concrete run in which the GIGW and
Lighthouse checkers both fail while axe succeeds — the scan completes with
a null GIGW result and a null score. -/
theorem checker_failure_partial_results_witness :
    (processScan gigwLighthouseFailureEnv).status = ScanStatus.completed ∧
    (processScan gigwLighthouseFailureEnv).gigwSaved = none ∧
    (processScan gigwLighthouseFailureEnv).score = none :=
  have h := checker_failure_partial_results gigwLighthouseFailureEnv
    rfl rfl rfl rfl rfl { issues := [] } rfl
  ⟨h.1, h.2.1 "Execution context was destroyed" rfl,
    h.2.2.1 "connect ECONNREFUSED 127.0.0.1:9222" rfl⟩

/-- C8: `processScan` is total (its model never produces an uncaught
error — every throw inside the `try` body is an `Except.error` consumed by
the `catch`), the scan record always ends in a terminal state
(`completed` or `failed`, never `processing`), and every caught error is
classified into one of `browser_closed`, `frame_detached`, `timeout`,
`connection_refused`, `unknown` and recorded in the scan metadata. -/
theorem processScan_total_terminal_classified (env : ScanEnv) :
    ((processScan env).status = ScanStatus.completed ∨
     (processScan env).status = ScanStatus.failed) ∧
    (∀ msg, env.shuttingDownAtStart = false →
      (runScanInner env).result = Except.error msg →
      (processScan env).errorType = some (classifyError msg) ∧
      (classifyError msg = ScanErrorType.browser_closed ∨
       classifyError msg = ScanErrorType.frame_detached ∨
       classifyError msg = ScanErrorType.timeout ∨
       classifyError msg = ScanErrorType.connection_refused ∨
       classifyError msg = ScanErrorType.unknown)) := by
  constructor
  · by_cases h1 : env.shuttingDownAtStart = true
    · right; simp [processScan, h1]
    · cases hres : (runScanInner env).result with
      | ok data => left; simp [processScan, h1, hres]
      | error m => right; simp [processScan, h1, hres]
  · intro msg h1 hres
    refine ⟨by simp [processScan, h1, hres], ?_⟩
    unfold classifyError
    split_ifs <;> simp

/-- Witness for C8: a concrete run whose axe checker yields a Failed
outcome — `processScan` records the classified error and ends terminal. -/
theorem processScan_total_terminal_classified_witness :
    (processScan failedCheckerEnv).errorType =
        some (classifyError "Browser page was closed during scan") ∧
    ((processScan failedCheckerEnv).status = ScanStatus.completed ∨
     (processScan failedCheckerEnv).status = ScanStatus.failed) :=
  have h := processScan_total_terminal_classified failedCheckerEnv
  ⟨(h.2 "Browser page was closed during scan" rfl rfl).1, h.1⟩

/-- Counterexample to C10: `runLighthouse` CAN return 0.  A raw Lighthouse
score that is positive but below 0.005 — here 1/250 = 0.004 — is truthy,
so `Math.round(score * 100)` gives 0 and the validation guard
(`accessibilityScore === 0 && !score`) does not fire: the function returns
0 instead of throwing. -/
theorem lighthouse_returns_zero_on_small_score :
    extractLighthouseScore (some (1/250)) = Except.ok 0 := by
  norm_num [extractLighthouseScore, jsRound]
  intro h
  exact Option.noConfusion h

/-- C10 (amended): `runLighthouse` throws when the raw accessibility score
is missing or exactly 0; for a positive raw score `s ≤ 1` it returns
`Math.round(s * 100)`, an integer in 0..100 — which is 0 when `s < 0.005`
— and a `runLighthouse` failure is converted by the orchestrator into a
null score.  Hence a completed scan score is null or an integer in
0..100 (not 1..100 as claimed). -/
theorem lighthouse_score_amended :
    extractLighthouseScore none = Except.error "Lighthouse returned invalid score" ∧
    extractLighthouseScore (some 0) = Except.error "Lighthouse returned invalid score" ∧
    (∀ s : ℚ, 0 < s → s ≤ 1 →
      extractLighthouseScore (some s) = Except.ok (jsRound (s * 100)) ∧
      0 ≤ jsRound (s * 100) ∧ jsRound (s * 100) ≤ 100) ∧
    (∀ (env : ScanEnv) (e : String), env.lighthouseRun = Except.error e →
      (processScan env).score = none) := by
  refine ⟨by norm_num [extractLighthouseScore], by norm_num [extractLighthouseScore], ?_, ?_⟩
  · intro s h0 h1
    have hs0 : s ≠ 0 := ne_of_gt h0
    refine ⟨?_, ?_, ?_⟩
    · simp only [extractLighthouseScore, if_pos hs0]
      rw [if_neg]
      rintro ⟨-, h | h⟩
      · exact Option.noConfusion h
      · exact hs0 (Option.some.inj h)
    · apply Int.le_floor.mpr
      push_cast
      nlinarith
    · have hle : s * 100 + 1/2 ≤ (100 : ℚ) + 1/2 := by nlinarith
      calc ⌊s * 100 + 1/2⌋ ≤ ⌊(100 : ℚ) + 1/2⌋ := Int.floor_le_floor hle
        _ = 100 := by norm_num
  · intro env e he
    by_cases h1 : env.shuttingDownAtStart = true
    · simp [processScan, h1]
    · by_cases h2 : env.shuttingDownAfterIncrement = true
      · simp [processScan, runScanInner, h1, h2]
      · by_cases h3 : env.scanFound = true
        · cases hop : env.openPageResult with
          | error m => simp [processScan, runScanInner, h1, h2, h3, hop]
          | ok u =>
              cases hax : axeTask env with
              | error m => simp [processScan, runScanInner, h1, h2, h3, hop, hax]
              | ok r => simp [processScan, runScanInner, lighthouseTask, h1, h2, h3, hop, hax, he]
        · rw [Bool.not_eq_true] at h3
          simp [processScan, runScanInner, h1, h2, h3]

/-- Witness for C10 (amended): the theorem applied at the raw score 1/2
(return value 50, inside 0..100) and at a run whose Lighthouse checker
fails (null score recorded). -/
theorem lighthouse_score_amended_witness :
    (extractLighthouseScore (some (1/2)) = Except.ok (jsRound ((1/2 : ℚ) * 100)) ∧
      0 ≤ jsRound ((1/2 : ℚ) * 100) ∧ jsRound ((1/2 : ℚ) * 100) ≤ 100) ∧
    (processScan lighthouseFailureEnv).score = none :=
  ⟨lighthouse_score_amended.2.2.1 (1/2) (by norm_num) (by norm_num),
   lighthouse_score_amended.2.2.2 lighthouseFailureEnv "connect ECONNREFUSED" rfl⟩

/-- Helper for C3: running the checks over a list whose first evaluation
error sits after an error-free prefix accumulates exactly the prefix
contributions and stops at the error. -/
theorem runGigwList_append_error
    (pre : List (Except String (Option GIGWViolation))) (e : String)
    (rest : List (Except String (Option GIGWViolation)))
    (hpre : ∀ m, Except.error m ∉ pre) :
    runGigwList (pre ++ Except.error e :: rest) =
      (gigwOkViolations pre, gigwPassCount pre, some e) := by
  induction pre with
  | nil => simp [runGigwList, gigwOkViolations, gigwPassCount]
  | cons c cs ih =>
      have hcs : ∀ m, Except.error m ∉ cs := by
        intro m hm
        exact hpre m (List.mem_cons_of_mem _ hm)
      cases c with
      | error m => exact absurd (List.mem_cons_self _ _) (hpre m)
      | ok o =>
          cases o with
          | none =>
              simp [runGigwList, gigwOkViolations, gigwPassCount, ih hcs,
                gigwOkViolations, gigwPassCount]
          | some v =>
              simp [runGigwList, gigwOkViolations, gigwPassCount, ih hcs]

/-- Counterexample to C3: on a page whose first GIGW evaluation throws an
ordinary error while the remaining seven checks would all pass, the
remaining checks do NOT execute — the result tallies 0 passed checks
instead of the 7 the claim requires (the same page with a succeeding first
check tallies 8). -/
theorem gigw_error_aborts_remaining_checks :
    runGIGWChecks gigwErrorPage =
      Except.ok { passed := true, totalChecks := 8, passedChecks := 0, violations := [] } ∧
    runGIGWChecks gigwAllPassPage =
      Except.ok { passed := true, totalChecks := 8, passedChecks := 8, violations := [] } ∧
    (0 : Nat) ≠ 7 :=
  ⟨rfl, rfl, by decide⟩

/-- C3 (amended): the eight checks of `runGIGWChecks` share one `try`
block, so when the evaluation of one check throws a non-session-loss
error, the checks after it do not run: the result is built from the
error-free prefix alone — the errored check and every later check are
excluded from both the passed tally and the violation list. -/
theorem gigw_partial_results_amended (p : GigwPage)
    (pre rest : List (Except String (Option GIGWViolation))) (e : String)
    (hsplit : gigwCheckList p = pre ++ Except.error e :: rest)
    (hpre : ∀ m, Except.error m ∉ pre)
    (hstart : p.closedAtStart = false)
    (hcatch : p.closedAtCatch = false)
    (htc : includes e "Target closed" = false)
    (hsc : includes e "Session closed" = false) :
    runGIGWChecks p =
      Except.ok { passed := (gigwOkViolations pre).isEmpty, totalChecks := 8,
                  passedChecks := gigwPassCount pre,
                  violations := gigwOkViolations pre } := by
  unfold runGIGWChecks
  rw [hsplit, runGigwList_append_error pre e rest hpre]
  simp [hstart, hcatch, htc, hsc]

/-- Witness for C3 (amended): on `gigwWitnessPage` the first check records
a violation, the second check throws `boom`, and checks 3–8 are excluded:
the result keeps exactly the first check's violation and a zero passed
tally. -/
theorem gigw_partial_results_amended_witness :
    runGIGWChecks gigwWitnessPage =
      Except.ok { passed := false, totalChecks := 8, passedChecks := 0,
                  violations :=
                    [⟨"GIGW 3.0 - 4.1.1 Text Alternatives",
                      "Found 3 image(s) without alt text. All images must have descriptive alt attributes.",
                      "critical"⟩] } :=
  gigw_partial_results_amended gigwWitnessPage
    [Except.ok (some ⟨"GIGW 3.0 - 4.1.1 Text Alternatives",
      "Found 3 image(s) without alt text. All images must have descriptive alt attributes.",
      "critical"⟩)]
    ((gigwCheckList gigwWitnessPage).drop 2) "boom"
    rfl
    (by intro m hm; simp at hm)
    rfl rfl (by decide) (by decide)

/-- Helper for C7: every category the `wcagMapping` table can return is in
the catalog. -/
theorem wcagMapping_mem_catalog (s : String) (c : WCAGCategory)
    (h : wcagMapping s = some c) : c ∈ wcagCatalog := by
  unfold wcagMapping at h
  split at h <;>
    first
      | exact Option.noConfusion h
      | (rw [Option.some.injEq] at h; subst h; decide)

/-- Helper for C7: every category `enrichIssue` assigns is in the
catalog. -/
theorem enrichIssue_cat_mem (r : RawIssue) :
    (enrichIssue r).wcagCategory ∈ wcagCatalog := by
  show (wcagMapping r.ruleId).getD defaultWCAGCategory ∈ wcagCatalog
  cases h : wcagMapping r.ruleId with
  | none => simp only [Option.getD_none]; decide
  | some c => simpa only [Option.getD_some] using wcagMapping_mem_catalog r.ruleId c h

/-- Helper for C7: within the catalog, a success criterion determines its
conformance level. -/
theorem wcagCatalog_level_consistent :
    ∀ c1 ∈ wcagCatalog, ∀ c2 ∈ wcagCatalog,
      c1.successCriteria = c2.successCriteria → c1.level = c2.level := by decide

/-- Helper for C7: every entry `addFailed` keeps or creates carries the
criterion and level of an existing entry or of the processed issue. -/
theorem addFailed_pairs (acc : List FailedCriterion) (i : EnrichedIssue)
    (f : FailedCriterion) (hf : f ∈ addFailed acc i) :
    (∃ g ∈ acc, g.criterion = f.criterion ∧ g.level = f.level) ∨
    (f.criterion = i.wcagCategory.successCriteria ∧
      f.level = i.wcagCategory.level) := by
  unfold addFailed at hf
  split at hf
  · rcases List.mem_map.mp hf with ⟨g, hg, hgf⟩
    left
    refine ⟨g, hg, ?_, ?_⟩
    · by_cases hc : g.criterion = i.wcagCategory.successCriteria
      · rw [if_pos hc] at hgf; rw [← hgf]
      · rw [if_neg hc] at hgf; rw [← hgf]
    · by_cases hc : g.criterion = i.wcagCategory.successCriteria
      · rw [if_pos hc] at hgf; rw [← hgf]
      · rw [if_neg hc] at hgf; rw [← hgf]
  · rcases List.mem_append.mp hf with hin | hin
    · left; exact ⟨f, hin, rfl, rfl⟩
    · right
      rcases List.mem_singleton.mp hin with rfl
      exact ⟨rfl, rfl⟩

/-- Helper for C7: every entry of the folded map carries the criterion and
level of some entry of the seed or of some processed issue. -/
theorem foldl_pairs (es : List EnrichedIssue) :
    ∀ (acc : List FailedCriterion) (f : FailedCriterion),
      f ∈ es.foldl addFailed acc →
      (∃ g ∈ acc, g.criterion = f.criterion ∧ g.level = f.level) ∨
      (∃ i ∈ es, f.criterion = i.wcagCategory.successCriteria ∧
        f.level = i.wcagCategory.level) := by
  induction es with
  | nil =>
      intro acc f hf
      left
      exact ⟨f, by simpa using hf, rfl, rfl⟩
  | cons i es ih =>
      intro acc f hf
      simp only [List.foldl_cons] at hf
      rcases ih (addFailed acc i) f hf with ⟨g, hg, h1, h2⟩ | ⟨j, hj, h1, h2⟩
      · rcases addFailed_pairs acc i g hg with ⟨g2, hg2, e1, e2⟩ | ⟨e1, e2⟩
        · left; exact ⟨g2, hg2, e1.trans h1, e2.trans h2⟩
        · right; exact ⟨i, List.mem_cons_self _ _, h1.symm.trans e1 |>.symm ▸ rfl, h2.symm.trans e2 |>.symm ▸ rfl⟩
      · right; exact ⟨j, List.mem_cons_of_mem _ hj, h1, h2⟩

/-- Helper for C7: `addFailed` preserves the presence of a criterion. -/
theorem addFailed_preserves (acc : List FailedCriterion) (j : EnrichedIssue)
    (c : String) (h : ∃ f ∈ acc, f.criterion = c) :
    ∃ f ∈ addFailed acc j, f.criterion = c := by
  rcases h with ⟨f, hf, hfc⟩
  unfold addFailed
  split
  · refine ⟨if f.criterion = j.wcagCategory.successCriteria then
        { f with count := f.count + 1 } else f,
      List.mem_map.mpr ⟨f, hf, rfl⟩, ?_⟩
    split <;> exact hfc
  · exact ⟨f, List.mem_append_left _ hf, hfc⟩

/-- Helper for C7: after `addFailed acc j`, the criterion of `j` is
present. -/
theorem addFailed_adds (acc : List FailedCriterion) (j : EnrichedIssue) :
    ∃ f ∈ addFailed acc j, f.criterion = j.wcagCategory.successCriteria := by
  unfold addFailed
  split
  · next h =>
      rcases List.any_eq_true.mp h with ⟨f0, hf0, hdec⟩
      have hc : f0.criterion = j.wcagCategory.successCriteria := of_decide_eq_true hdec
      refine ⟨if f0.criterion = j.wcagCategory.successCriteria then
          { f0 with count := f0.count + 1 } else f0,
        List.mem_map.mpr ⟨f0, hf0, rfl⟩, ?_⟩
      rw [if_pos hc]
      exact hc
  · exact ⟨⟨j.wcagCategory.successCriteria, j.wcagCategory.level, 1⟩,
      List.mem_append_right _ (List.mem_singleton.mpr rfl), rfl⟩

/-- Helper for C7: folding preserves the presence of a criterion. -/
theorem foldl_preserves (es : List EnrichedIssue) :
    ∀ (acc : List FailedCriterion) (c : String),
      (∃ f ∈ acc, f.criterion = c) →
      ∃ f ∈ es.foldl addFailed acc, f.criterion = c := by
  induction es with
  | nil => intro acc c h; simpa using h
  | cons j es ih =>
      intro acc c h
      simp only [List.foldl_cons]
      exact ih _ c (addFailed_preserves acc j c h)

/-- Helper for C7: the folded map covers the criterion of every processed
issue. -/
theorem foldl_covers (es : List EnrichedIssue) :
    ∀ (acc : List FailedCriterion) (i : EnrichedIssue), i ∈ es →
      ∃ f ∈ es.foldl addFailed acc,
        f.criterion = i.wcagCategory.successCriteria := by
  induction es with
  | nil => intro acc i hi; simp at hi
  | cons j es ih =>
      intro acc i hi
      simp only [List.foldl_cons]
      rcases List.mem_cons.mp hi with rfl | hi2
      · exact foldl_preserves es (addFailed acc i) _ (addFailed_adds acc i)
      · exact ih (addFailed acc j) i hi2

/-- Helper for C7: when (as for enriched issues) the criterion determines
the level, the failed-criteria map records a level iff some issue has that
level. -/
theorem failedCriteria_hasLevel (es : List EnrichedIssue)
    (hcons : ∀ i1 ∈ es, ∀ i2 ∈ es,
      i1.wcagCategory.successCriteria = i2.wcagCategory.successCriteria →
      i1.wcagCategory.level = i2.wcagCategory.level)
    (L : WCAGLevel) :
    (failedCriteriaOf es).any (fun f => decide (f.level = L)) =
      es.any (fun i => decide (i.wcagCategory.level = L)) := by
  have hiff :
      ((failedCriteriaOf es).any (fun f => decide (f.level = L)) = true) ↔
        (es.any (fun i => decide (i.wcagCategory.level = L)) = true) := by
    simp only [List.any_eq_true, decide_eq_true_eq, failedCriteriaOf]
    constructor
    · rintro ⟨f, hf, hfl⟩
      rcases foldl_pairs es [] f hf with ⟨g, hg, -, -⟩ | ⟨i, hi, -, hlev⟩
      · simp at hg
      · exact ⟨i, hi, by rw [← hlev]; exact hfl⟩
    · rintro ⟨i, hi, hil⟩
      rcases foldl_covers es [] i hi with ⟨f, hf, hc⟩
      rcases foldl_pairs es [] f hf with ⟨g, hg, -, -⟩ | ⟨i2, hi2, hc2, hl2⟩
      · simp at hg
      · refine ⟨f, hf, ?_⟩
        rw [hl2, hcons i2 hi2 i hi (hc2.symm.trans hc)]
        exact hil
  cases h1 : (failedCriteriaOf es).any (fun f => decide (f.level = L)) <;>
    cases h2 : es.any (fun i => decide (i.wcagCategory.level = L)) <;>
      simp_all

/-- Helper for C7: the failed-criteria map is empty iff there are no
issues. -/
theorem failedCriteria_empty (es : List EnrichedIssue) :
    (failedCriteriaOf es).length = 0 ↔ es = [] := by
  constructor
  · intro h
    cases es with
    | nil => rfl
    | cons i es2 =>
        exfalso
        rcases foldl_covers (i :: es2) [] i (List.mem_cons_self _ _) with ⟨f, hf, -⟩
        have hnil : failedCriteriaOf (i :: es2) = [] := List.length_eq_zero.mp h
        rw [failedCriteriaOf] at hnil
        rw [hnil] at hf
        simp at hf
  · rintro rfl; rfl

/-- C7: WCAG enrichment maps each rule id through the static table
(`wcagMapping`), unmapped rule ids fall back to the default category
(Robust / 4.1 Compatible / 4.1.1 Parsing / level A); and the derived
conformance level is Non-conformant if any failed criterion has level A,
else A if any failed criterion has level AA, else AAA if there are no
failed criteria, else AA — where, for enriched issues, a level-L failed
criterion exists exactly when some issue carries level L. -/
theorem wcag_enrichment_and_conformance (rs : List RawIssue) :
    (∀ (r : RawIssue) (c : WCAGCategory), wcagMapping r.ruleId = some c →
      (enrichIssue r).wcagCategory = c) ∧
    (∀ r : RawIssue, wcagMapping r.ruleId = none →
      (enrichIssue r).wcagCategory =
        { principle := WCAGPrinciple.Robust, guideline := "4.1 Compatible",
          successCriteria := "4.1.1 Parsing", level := WCAGLevel.A }) ∧
    ((calculateWCAGConformance (enrichIssues rs)).level =
      if (enrichIssues rs).any (fun i => decide (i.wcagCategory.level = WCAGLevel.A)) then
        ConformanceLevel.NonConformant
      else if (enrichIssues rs).any (fun i => decide (i.wcagCategory.level = WCAGLevel.AA)) then
        ConformanceLevel.A
      else if rs = [] then ConformanceLevel.AAA
      else ConformanceLevel.AA) := by
  refine ⟨?_, ?_, ?_⟩
  · intro r c h
    simp [enrichIssue, h]
  · intro r h
    simp [enrichIssue, h, defaultWCAGCategory]
  · have hcons : ∀ i1 ∈ enrichIssues rs, ∀ i2 ∈ enrichIssues rs,
        i1.wcagCategory.successCriteria = i2.wcagCategory.successCriteria →
        i1.wcagCategory.level = i2.wcagCategory.level := by
      intro i1 h1 i2 h2 hc
      simp only [enrichIssues] at h1 h2
      rcases List.mem_map.mp h1 with ⟨r1, -, rfl⟩
      rcases List.mem_map.mp h2 with ⟨r2, -, rfl⟩
      exact wcagCatalog_level_consistent _ (enrichIssue_cat_mem r1)
        _ (enrichIssue_cat_mem r2) hc
    have hempty : ((failedCriteriaOf (enrichIssues rs)).length = 0) ↔ rs = [] := by
      rw [failedCriteria_empty]
      simp [enrichIssues]
    simp only [calculateWCAGConformance,
      failedCriteria_hasLevel (enrichIssues rs) hcons WCAGLevel.A,
      failedCriteria_hasLevel (enrichIssues rs) hcons WCAGLevel.AA,
      hempty]

/-- Witness for C7: the enrichment fallback applied at an unmapped rule id
(whose default category has level A), and the conformance level of the
resulting one-issue list (Non-conformant). -/
theorem wcag_enrichment_and_conformance_witness :
    (enrichIssue unmappedIssue).wcagCategory =
      { principle := WCAGPrinciple.Robust, guideline := "4.1 Compatible",
        successCriteria := "4.1.1 Parsing", level := WCAGLevel.A } ∧
    (calculateWCAGConformance (enrichIssues [unmappedIssue])).level =
      ConformanceLevel.NonConformant :=
  have h := wcag_enrichment_and_conformance [unmappedIssue]
  ⟨h.2.1 unmappedIssue rfl, h.2.2.trans (by decide)⟩
